import Mathlib

/-!
Shallow embedding of the attribute-resolution core of the
`product_attribute_selector` repository (files `attribute_selector.py`,
`utils.py`, `config.py`), together with theorems settling the frozen claims.

External collaborators (database, language model, vision model, filesystem,
clock) are modelled as an explicit environment of oracle functions; the
repository's own logic is translated function by function.  Python strings
are Lean `String`s, Python `None`-able values are `Option String`
(`none` = Python `None`), and a Python function that can raise to its
caller is modelled with `Except Unit`.
-/

namespace ProductAttributeSelector

/-! ### Python string primitives

The embedding avoids the kernel-opaque parts of Lean's `String` API by
recomputing on `List Char`:  `strContains` models Python's `in` on strings,
`pyStrip` models `str.strip()`, `pyReplace` models `str.replace` (all
occurrences, leftmost first, non-overlapping), `takeUntil` models
`str.split(sep)[0]`, and `strLower` models `str.lower()`.
-/

/-- Is `pat` a prefix of `l`?  (Python slice comparison.) -/
def listPrefixOf : List Char → List Char → Bool
  | [], _ => true
  | _ :: _, [] => false
  | a :: as, b :: bs => a == b && listPrefixOf as bs

/-- Does `l` contain `pat` as a contiguous sublist? -/
def listContainsSub (pat : List Char) : List Char → Bool
  | [] => listPrefixOf pat []
  | c :: cs => listPrefixOf pat (c :: cs) || listContainsSub pat cs

/-- Python `pat in s` for strings (substring test; `"" in s` is `True`). -/
def strContains (s pat : String) : Bool :=
  listContainsSub pat.data s.data

/-- Python `s.strip()`: remove leading and trailing whitespace. -/
def pyStrip (s : String) : String :=
  String.mk (((s.data.dropWhile Char.isWhitespace).reverse.dropWhile
      Char.isWhitespace).reverse)

/-- Fuel-indexed worker for `pyReplace`; fuel bounds the number of scanned
positions, so the recursion is structural. -/
def replaceFuel (pat rep : List Char) : Nat → List Char → List Char
  | _, [] => []
  | 0, cs => cs
  | fuel + 1, c :: cs =>
    if !pat.isEmpty && listPrefixOf pat (c :: cs) then
      rep ++ replaceFuel pat rep fuel (List.drop (pat.length - 1) cs)
    else
      c :: replaceFuel pat rep fuel cs

/-- Python `s.replace(pat, rep)` for a non-empty `pat` (every call in the
source uses a fixed non-empty literal pattern). -/
def pyReplace (s pat rep : String) : String :=
  String.mk (replaceFuel pat.data rep.data s.data.length s.data)

/-- The part of `l` strictly before the first occurrence of `pat`
(Python `s.split(sep)[0]` for non-empty `sep` occurring in `s`). -/
def takeUntil (pat : List Char) : List Char → List Char
  | [] => []
  | c :: cs =>
    if !pat.isEmpty && listPrefixOf pat (c :: cs) then []
    else c :: takeUntil pat cs

/-- Python `s.split(sep)[0]`. -/
def splitFirst (s sep : String) : String :=
  String.mk (takeUntil sep.data s.data)

/-- Python `s.lower()` (only applied to ASCII file extensions). -/
def strLower (s : String) : String :=
  String.mk (s.data.map Char.toLower)

/-- Index of the last occurrence of `c` in `cs` (Python `str.rfind`). -/
def lastIdxOf (cs : List Char) (c : Char) : Option Nat :=
  ((cs.enum.filter (fun p => p.2 == c)).getLast?).map (fun p => p.1)

/-- Python `os.path.splitext` (posix): split off the extension at the last
dot of the basename, unless every character before it in the basename is
itself a dot. -/
def splitext (p : String) : String × String :=
  let cs := p.data
  let sepIndex : Int := match lastIdxOf cs '/' with | some i => (i : Int) | none => -1
  let dotIndex : Int := match lastIdxOf cs '.' with | some i => (i : Int) | none => -1
  if sepIndex < dotIndex then
    let nameStart := (sepIndex + 1).toNat
    let dotN := dotIndex.toNat
    if (List.range (dotN - nameStart)).any
        (fun k => !(cs.getD (nameStart + k) '.' == '.')) then
      (String.mk (cs.take dotN), String.mk (cs.drop dotN))
    else (p, "")
  else (p, "")

/-! ### Static configuration (`config.py`) -/

/-- Source `IMAGE_CONFIG["formats"]`. -/
def image_formats : List String := [".jpg", ".jpeg", ".png", ".webp"]

/-- Source `ATTRIBUTE_MATCHING["aliases"]`, in declaration order. -/
def aliases_table : List (String × List String) := [
  ("鞋面材质", ["帮面材质", "靴筒面材质", "鞋帮材质"]),
  ("鞋底材质", ["鞋底材质", "鞋底材料", "鞋底材料类型"]),
  ("鞋垫材质", ["鞋垫材质", "鞋垫材料", "鞋垫材料类型"]),
  ("内里材质", ["鞋面内里材质", "靴筒内里材质"]),
  ("闭合方式", ["鞋子闭合方式", "鞋扣方式"]),
  ("开口深度", ["开口深度", "开口大小"]),
  ("风格", ["鞋子风格"]),
  ("款式", ["鞋子款式"]),
  ("鞋头款式", ["鞋头样式", "鞋尖样式"]),
  ("鞋跟款式", ["鞋跟样式", "后跟样式"]),
  ("季节", ["适用季节", "使用季节", "上市年份季节"]),
  ("后跟高", ["鞋跟高度", "跟高", "鞋后跟高度"]),
  ("靴筒高度", ["靴筒高", "筒高"]),
  ("鞋底厚度", ["前底厚度", "台高", "鞋底高度", "前底高度"])]

/-- Source `ATTRIBUTE_MATCHING["value_mapping"]`, in declaration order. -/
def value_mapping : List (String × List (String × List String)) := [
  ("材质", [
    ("真皮", ["头层牛皮", "牛皮", "真牛皮", "二层牛皮(除牛反绒)", "二层猪皮"]),
    ("人造革", ["PU", "PU革", "合成革", "人工革"]),
    ("织物", ["布料", "纺织物", "纺织"])]),
  ("闭合方式", [
    ("系带", ["鞋带", "系鞋带"]),
    ("魔术贴", ["粘扣", "魔鬼贴", "尼龙贴"]),
    ("拉链", ["侧拉链"]),
    ("套脚", ["一脚蹬", "懒人", "无扣", "直接套"])]),
  ("后跟高", [
    ("低跟(1-3cm)", ["1cm", "2cm", "3cm", "1-3cm", "低跟"]),
    ("中跟(3-5cm)", ["3-5cm", "4cm", "5cm", "中跟"]),
    ("高跟(5-8cm)", ["5-8cm", "6cm", "7cm", "8cm", "高跟"]),
    ("超高跟(8cm以上)", ["8cm以上", "9cm", "10cm", "超高跟"]),
    ("平跟(小于1cm)", ["0cm", "0.5cm", "1cm以下", "平跟"])])]

/-- The keys of the value map (`list(value_mapping.keys())`). -/
def value_mapping_keys : List String := value_mapping.map (fun e => e.1)

/-! ### External capabilities

One record of oracle functions stands for the external collaborators:
the language model (`call_llm`, already total — its wrapper returns `""`
on failure), the vision model behind `analyze_image_with_openai`, the
embedding-similarity argmax of `SentenceTransformer`, the filesystem
(`os.path.exists`), the product database (`ProductDatabase.get_product_data`
returns a dict whose values may be SQL `NULL`, i.e. Python `None`), and the
clock (`datetime.datetime.now()`).
-/

structure Env where
  llm : String → String
  vision : String → String → String
  embedArgmax : String → List String → Nat
  pathExists : String → Bool
  db : String → List String → List (String × Option String)
  month : Nat
  year : Nat

/-- Python dict membership plus lookup: `some v` iff the key is present. -/
def dict_lookup (d : List (String × Option String)) (k : String) :
    Option (Option String) :=
  (d.find? (fun e => e.1 == k)).map (fun e => e.2)

/-- Python truthiness of a possibly-`None` string. -/
def truthyOpt : Option String → Bool
  | none => false
  | some s => !s.isEmpty

/-! ### `utils.py` -/

/-- Source `get_current_season`: month → season name. -/
def get_current_season (month : Nat) : String :=
  if 3 ≤ month ∧ month ≤ 5 then ("春季")
  else if 6 ≤ month ∧ month ≤ 8 then ("夏季")
  else if 9 ≤ month ∧ month ≤ 11 then ("秋季")
  else ("冬季")

/-- The `season_map` dict inside `get_next_season`. -/
def season_map : List (String × String) :=
  [("春季", "夏季"), ("夏季", "秋季"), ("秋季", "冬季"), ("冬季", "春季")]

/-- Source `season_map.get(current_season, "春季")`. -/
def season_successor (s : String) : String :=
  (((season_map.find? (fun e => e.1 == s)).map (fun e => e.2)).getD ("春季"))

/-- Source `get_next_season`: successor of the current season. -/
def get_next_season (month : Nat) : String :=
  season_successor (get_current_season month)

/-- Separator list of `extract_primary_material`. -/
def material_separators : List String := ["+", "，", ",", "、", "/"]

/-- Source `extract_primary_material`: first segment of a composite material
string, split at the first applicable separator, stripped. -/
def extract_primary_material (materialStr : String) : String :=
  if materialStr.isEmpty then ("")
  else
    match material_separators.find? (fun sep => strContains materialStr sep) with
    | some sep => pyStrip (splitFirst materialStr sep)
    | none => pyStrip materialStr

/-- The punctuation characters removed by `clean_attribute_value`. -/
def punctuation_chars : List String :=
  ["。", "！", "？", "；", "：", "、", "（", "）", "(", ")", "\"", "\x27"]

/-- Source `clean_attribute_value`: remove label prefixes and punctuation. -/
def clean_attribute_value (value : String) : String :=
  if value.isEmpty then ("")
  else
    let v1 := pyStrip (pyReplace value ("材质：") "")
    let v2 := pyStrip (pyReplace (pyReplace v1 ("主要成分：") "") "类型：" "")
    let v3 := punctuation_chars.foldl (fun acc ch => pyReplace acc ch ("")) v2
    pyStrip v3

/-- The per-analysis-type questions of `analyze_image`. -/
def analysis_prompts : List (String × String) := [
  ("closure_type",
   "这双鞋的闭合方式是什么（如系带、拉链、一脚蹬、魔术贴等)？请只回答闭合方式，不要有其他内容。"),
  ("shoe_toe_style",
   "这双鞋的鞋头款式是什么（如圆头、尖头、方头、鱼嘴、杏头等）？请只回答鞋头款式，不要有其他内容。"),
  ("heel_shape",
   "这双鞋的鞋跟款式是什么（如平跟、圆跟、方跟、尖跟、马蹄跟、坡跟、松糕跟、防水台等）？请只回答鞋跟款式，不要有其他内容。"),
  ("heel_height",
   "这双鞋的鞋跟高度是多少（如低跟，平跟、中跟，高跟，超高跟等）？请只回答鞋跟高度，不要有其他内容。"),
  ("opening_depth",
   "这双鞋的开口深度是多少（如浅口，中口，深口）？请只回答开口深度，不要有其他内容"),
  ("style",
   "这双鞋的风格是什么（如少女风，田园风，民族风，休闲风，极简风，嘻哈风，洛丽塔风，公主风，舒适，性感风等）？请只回答风格，不要有其他内容。"),
  ("shoe_shape",
   "这双鞋的款式是什么（如布鞋,单鞋,乐福鞋,豆豆鞋,穆勒鞋,牛津鞋,时尚休闲鞋,松糕鞋,摇摇鞋,休闲板鞋,帆布鞋,高帮鞋,方根高跟鞋,坡跟鞋,细跟高跟鞋,洞洞鞋,时尚休闲沙滩鞋,时装凉鞋,时尚雪地靴,雨鞋,包头拖,人字拖,一字拖, 弹力靴,袜靴,短靴,马丁靴,切尔西靴,时装靴等）？请只回答款式，不要有其他内容。")]

/-- The default question of `analyze_image` for unknown analysis types. -/
def default_analysis_prompt : String := "描述这张图片的主要特征，请简洁回答。"

/-- Source `analyze_image`: guard the path and extension, then ask the vision
capability the analysis-type-specific question.  All internal failures are
swallowed into `""`, so the function is total. -/
def analyze_image (env : Env) (imagePath : Option String)
    (analysisType : String) : String :=
  match imagePath with
  | none => ""
  | some p =>
    if p.isEmpty then ("")
    else if !(env.pathExists p) then ("")
    else if !(image_formats.contains (strLower (splitext p).2)) then ("")
    else
      let prompt :=
        (((analysis_prompts.find? (fun e => e.1 == analysisType)).map
          (fun e => e.2)).getD default_analysis_prompt)
      env.vision p prompt

/-- The semantic-match prompt of `find_best_value_match`. -/
def match_prompt (queryValue : String) (availableValues : List String) :
    String :=
  "给出以下可选值:" ++ String.intercalate (",") availableValues ++
  ",找出与" ++ queryValue ++ "语义匹配相近或者与" ++ queryValue ++
  "值相等的选项;如果" ++ queryValue ++
  "是数字，请直接返回与" ++ queryValue ++
  "匹配的以下鞋跟高度选项:低跟1-3cm,中跟3cm-5cm,高跟6cm-8cm,超高跟8cm以上,平跟小于1cm;请直接返回最匹配的选项，不要返回其他多余内容。"

/-- The inner loop over `value_map.items()` in `find_best_value_match`:
first exact-trigger match, then substring-trigger match, first declared
entry wins; a hit also requires the standard value to be a candidate. -/
def value_map_first_match :
    List (String × List String) → String → List String → Option String
  | [], _, _ => none
  | (standardValue, aliases) :: rest, queryValue, availableValues =>
    if aliases.contains queryValue && availableValues.contains standardValue then
      some standardValue
    else if (aliases.any (fun al => strContains queryValue al)) &&
        availableValues.contains standardValue then
      some standardValue
    else value_map_first_match rest queryValue availableValues

/-- The table-lookup step of `find_best_value_match` (skipped when
`attribute_type` is falsy or unknown). -/
def table_lookup_step (attributeType : Option String) (queryValue : String)
    (availableValues : List String) : Option String :=
  match attributeType with
  | none => none
  | some ty =>
    if ty.isEmpty then none
    else
      match value_mapping.find? (fun e => e.1 == ty) with
      | none => none
      | some e => value_map_first_match e.2 queryValue availableValues

/-- The model-assisted tail of `find_best_value_match`: ask the language
model, disambiguate a comma-separated answer by embedding similarity, and
accept the answer only if it is one of the candidates. -/
def llm_match_step (env : Env) (queryValue : String)
    (availableValues : List String) : String :=
  let matchedValue := env.llm (match_prompt queryValue availableValues)
  let matchedValue :=
    if strContains matchedValue (",") then
      availableValues.getD (env.embedArgmax queryValue availableValues) ""
    else matchedValue
  if availableValues.contains matchedValue then matchedValue else ("")

/-- Source `find_best_value_match`: empty list → `""`; singleton → its element;
then the value-map table, then the language model. -/
def find_best_value_match (env : Env) (queryValue : String)
    (availableValues : List String) (attributeType : Option String) : String :=
  if availableValues.isEmpty then ("")
  else if availableValues.length == 1 then availableValues.headD ("")
  else
    match table_lookup_step attributeType queryValue availableValues with
    | some v => v
    | none => llm_match_step env queryValue availableValues

/-! ### `attribute_selector.py`: attribute classification -/

/-- Keyword list of `is_season_attribute`. -/
def season_keywords : List String := ["季节", "适用季节", "上市年份季节"]

/-- Keyword list of `is_material_attribute`. -/
def material_keywords : List String := ["材质", "面料", "帮面", "鞋垫材质", "鞋底材质"]

/-- Keyword list of `is_size_attribute`. -/
def size_keywords : List String := ["高度", "厚度", "后跟高", "靴筒高", "鞋跟高", "鞋帮高度"]

/-- Keyword list of `is_closure_attribute`. -/
def closure_keywords : List String := ["闭合方式", "鞋扣"]

/-- Keyword list of `is_toe_style_attribute`. -/
def toe_keywords : List String := ["鞋头", "鞋尖"]

/-- Keyword list of `is_heel_shape_attribute`. -/
def heel_keywords : List String := ["鞋跟"]

/-- Keyword list of `is_opening_depth_attribute`. -/
def opening_depth_keywords : List String := ["开口深度", "开口大小"]

/-- Keyword list of `is_style_attribute`. -/
def style_keywords : List String := ["风格", "鞋子风格"]

/-- Keyword list of `is_shoe_shape_attribute`. -/
def shoe_shape_keywords : List String := ["款式", "鞋子款式"]

/-- Source `is_season_attribute`. -/
def is_season_attribute (attributeName : String) : Bool :=
  season_keywords.any (fun k => strContains attributeName k)

/-- Source `is_material_attribute`. -/
def is_material_attribute (attributeName : String) : Bool :=
  material_keywords.any (fun k => strContains attributeName k)

/-- Source `is_size_attribute`. -/
def is_size_attribute (attributeName : String) : Bool :=
  size_keywords.any (fun k => strContains attributeName k)

/-- Source `is_closure_attribute`. -/
def is_closure_attribute (attributeName : String) : Bool :=
  closure_keywords.any (fun k => strContains attributeName k)

/-- Source `is_toe_style_attribute`. -/
def is_toe_style_attribute (attributeName : String) : Bool :=
  toe_keywords.any (fun k => strContains attributeName k)

/-- Source `is_heel_shape_attribute`. -/
def is_heel_shape_attribute (attributeName : String) : Bool :=
  heel_keywords.any (fun k => strContains attributeName k)

/-- Source `is_opening_depth_attribute`. -/
def is_opening_depth_attribute (attributeName : String) : Bool :=
  opening_depth_keywords.any (fun k => strContains attributeName k)

/-- Source `is_style_attribute`. -/
def is_style_attribute (attributeName : String) : Bool :=
  style_keywords.any (fun k => strContains attributeName k)

/-- Source `is_shoe_shape_attribute`. -/
def is_shoe_shape_attribute (attributeName : String) : Bool :=
  shoe_shape_keywords.any (fun k => strContains attributeName k)

/-- The prompt of `find_standard_attribute`. -/
def standard_attr_prompt (attributeName : String) : String :=
  "在以下属性中，找出与" ++ attributeName ++ "语义最相似的一项:" ++
  String.intercalate (", ") (aliases_table.map (fun e => e.1)) ++
  "请直接返回最匹配的属性名称，不要有其他内容。"

/-- Source `find_standard_attribute`: exact/alias match over the alias table in
declaration order, then a language-model guess accepted only when it names
one of the standard attributes, else the input unchanged. -/
def find_standard_attribute (env : Env) (attributeName : String) : String :=
  match aliases_table.find?
      (fun e => attributeName == e.1 || e.2.contains attributeName) with
  | some e => e.1
  | none =>
    let matched := env.llm (standard_attr_prompt attributeName)
    if (aliases_table.map (fun e => e.1)).contains matched then matched
    else attributeName

/-! ### `attribute_selector.py`: per-category processors -/

/-- The year/season prompt of `process_season_attribute`. -/
def year_season_prompt (yearSeason : String) (availableValues : List String) :
    String :=
  "在以下选项中，找出与" ++ yearSeason ++ "最匹配的一项:" ++
  String.intercalate (", ") availableValues ++
  "请直接返回最匹配的选项，不要有其他内容。"

/-- Source `process_season_attribute`: the release-year branch searches for a
candidate containing both the current year and season and otherwise returns
the raw model answer; the plain branch searches for a candidate containing
the next season and otherwise delegates to `find_best_value_match`. -/
def process_season_attribute (env : Env) (attributeName : String)
    (availableValues : List String) : String :=
  if strContains attributeName ("上市年份") then
    let currentYear := toString env.year
    let currentSeason := get_current_season env.month
    match availableValues.find?
        (fun v => strContains v currentYear && strContains v currentSeason) with
    | some v => v
    | none =>
      env.llm (year_season_prompt (currentYear ++ currentSeason) availableValues)
  else
    let nextSeason := get_next_season env.month
    match availableValues.find? (fun v => strContains v nextSeason) with
    | some v => v
    | none => find_best_value_match env nextSeason availableValues none

/-- The field waterfall of `process_material_attribute` (the `if`/`elif`
chain over the returned dict, first present key wins, default `""`). -/
def first_present_value (productData : List (String × Option String)) :
    List String → Option String
  | [] => some ("")
  | k :: ks =>
    match dict_lookup productData k with
    | some v => v
    | none => first_present_value productData ks

/-- Source `process_material_attribute`. -/
def process_material_attribute (env : Env) (productNumber attributeName : String)
    (availableValues : List String) : String :=
  let productData := env.db productNumber ["材质", "鞋面材质", "帮面材质", attributeName]
  let material := first_present_value productData
    [attributeName, "鞋面材质", "鞋垫材质", "鞋底材质", "帮面材质", "内里材质", "材质"]
  if truthyOpt material then
    find_best_value_match env
      (extract_primary_material (material.getD (""))) availableValues none
  else ("")

/-- First key of `ks` present in the dict, with its (possibly `None`)
value (the `for field in [...]` loops of `process_size_attribute`). -/
def first_present_opt (productData : List (String × Option String)) :
    List String → Option (Option String)
  | [] => none
  | k :: ks =>
    match dict_lookup productData k with
    | some v => some v
    | none => first_present_opt productData ks

/-- Did the attribute name hit the heel-height keywords of
`process_size_attribute`? -/
def heel_keywords_hit (attributeName : String) : Bool :=
  strContains attributeName ("后跟高") || strContains attributeName ("鞋跟高")

/-- Did the attribute name hit the tube-height keyword? -/
def tube_keywords_hit (attributeName : String) : Bool :=
  strContains attributeName ("靴筒高")

/-- Did the attribute name hit the platform-height keywords? -/
def platform_keywords_hit (attributeName : String) : Bool :=
  strContains attributeName ("底厚") || strContains attributeName ("台高")

/-- The `recognition_type` computation of `process_size_attribute`. -/
def size_recognition_type (attributeName : String) : String :=
  if heel_keywords_hit attributeName then ("heel_height")
  else if tube_keywords_hit attributeName then ("tube_height")
  else if platform_keywords_hit attributeName then ("platform_height")
  else ("")

/-- The field list requested from the database by `process_size_attribute`. -/
def size_fields (attributeName : String) : List String :=
  [attributeName, "后跟高", "靴筒高度", "鞋跟高度",
   "heel_height", "tube_height", "platform_height"]

/-- The database part of `process_size_attribute`: `size_value` after the
dict lookups, where `some ""` is the initial `""`, `none` is Python `None`
taken from the dict, and `some s` is a string value from the dict. -/
def size_db_value (productData : List (String × Option String))
    (attributeName : String) : Option String :=
  match dict_lookup productData attributeName with
  | some v => v
  | none =>
    if heel_keywords_hit attributeName then
      (first_present_opt productData ["后跟高", "鞋跟高度", "heel_height"]).getD (some (""))
    else if tube_keywords_hit attributeName then
      (first_present_opt productData ["靴筒高度", "tube_height"]).getD (some (""))
    else if platform_keywords_hit attributeName then
      (first_present_opt productData ["鞋底厚度", "platform_height"]).getD (some (""))
    else some ("")

/-- Execution record of one `process_size_attribute` call: the database
value of `size_value` before the image fallback, the analysis type passed
to `analyze_image` when the fallback fires (`none` when it does not), and
the returned string. -/
structure SizeTrace where
  dbValue : Option String
  visionCall : Option String
  result : String
deriving DecidableEq, Repr

/-- Source `process_size_attribute`.  The image fallback fires only when
`size_value == None` (the explicit sentinel) and a recognition type was
derived from the attribute name; the analysis type passed is the literal
`"heel_height"` whatever the recognition type was. -/
def process_size_attribute (env : Env) (productNumber attributeName : String)
    (availableValues : List String) (imagePath : Option String) : SizeTrace :=
  let productData := env.db productNumber (size_fields attributeName)
  let dbv := size_db_value productData attributeName
  let invoke := dbv.isNone && !(size_recognition_type attributeName).isEmpty
  let sizeValue := if invoke then some (analyze_image env imagePath ("heel_height")) else dbv
  let result :=
    if truthyOpt sizeValue then
      find_best_value_match env
        (clean_attribute_value (sizeValue.getD (""))) availableValues none
    else ("")
  { dbValue := dbv,
    visionCall := if invoke then some ("heel_height") else none,
    result := result }

/-- Python falsiness of the image path combined with the existence check
(`if not image_path or not os.path.exists(image_path)`). -/
def image_missing (env : Env) : Option String → Bool
  | none => true
  | some p => p.isEmpty || !(env.pathExists p)

/-- Source `process_closure_attribute` (the only processor passing an
attribute-type hint to the matcher). -/
def process_closure_attribute (env : Env) (imagePath : Option String)
    (availableValues : List String) : String :=
  if image_missing env imagePath then ("")
  else
    let closureType := analyze_image env imagePath ("closure_type")
    if !closureType.isEmpty then
      find_best_value_match env closureType availableValues (some ("闭合方式"))
    else ("")

/-- Source `process_toe_style_attribute`. -/
def process_toe_style_attribute (env : Env) (imagePath : Option String)
    (availableValues : List String) : String :=
  if image_missing env imagePath then ("")
  else
    let toeStyle := analyze_image env imagePath ("shoe_toe_style")
    if !toeStyle.isEmpty then
      find_best_value_match env toeStyle availableValues none
    else ("")

/-- Source `process_heel_shape_attribute`. -/
def process_heel_shape_attribute (env : Env) (imagePath : Option String)
    (availableValues : List String) : String :=
  if image_missing env imagePath then ("")
  else
    let heelShape := analyze_image env imagePath ("heel_shape")
    if !heelShape.isEmpty then
      find_best_value_match env heelShape availableValues none
    else ("")

/-- Source `process_opening_depth_attribute`. -/
def process_opening_depth_attribute (env : Env) (imagePath : Option String)
    (availableValues : List String) : String :=
  if image_missing env imagePath then ("")
  else
    let openingDepth := analyze_image env imagePath ("opening_depth")
    if !openingDepth.isEmpty then
      find_best_value_match env openingDepth availableValues none
    else ("")

/-- Source `process_style_attribute`.  On a missing image the source calls
`logger.waring`, an attribute the logger does not have, so the call raises
`AttributeError` to the caller: modelled as `Except.error ()`. -/
def process_style_attribute (env : Env) (imagePath : Option String)
    (availableValues : List String) : Except Unit String :=
  if image_missing env imagePath then Except.error ()
  else
    let style := analyze_image env imagePath ("style")
    if !style.isEmpty then
      Except.ok (find_best_value_match env style availableValues none)
    else Except.ok ("")

/-- Source `process_shoe_shape_attribute`: same `logger.waring` fault as
`process_style_attribute` on a missing image. -/
def process_shoe_shape_attribute (env : Env) (imagePath : Option String)
    (availableValues : List String) : Except Unit String :=
  if image_missing env imagePath then Except.error ()
  else
    let shoeShape := analyze_image env imagePath ("shoe_shape")
    if !shoeShape.isEmpty then
      Except.ok (find_best_value_match env shoeShape availableValues none)
    else Except.ok ("")

/-- Source `process_general_attribute`. -/
def process_general_attribute (env : Env) (productNumber attributeName : String)
    (availableValues : List String) : String :=
  let productData := env.db productNumber [attributeName]
  match dict_lookup productData attributeName with
  | some v =>
    find_best_value_match env (clean_attribute_value (v.getD ("")))
      availableValues none
  | none => ""

/-! ### `attribute_selector.py`: orchestration -/

/-- The image-path validation at the top of `select_attribute_value`:
a truthy path that does not exist or has an unsupported extension is
replaced by `None`. -/
def validate_image_path (env : Env) : Option String → Option String
  | none => none
  | some p =>
    if p.isEmpty then some p
    else if !(env.pathExists p) then none
    else if !(image_formats.contains (strLower (splitext p).2)) then none
    else some p

/-- The `if`/`elif` dispatch of `select_attribute_value` (lines 74–112):
the season check runs on the trimmed raw name, every later check on the
canonicalized name.  The style and shoe-shape processors can raise. -/
def dispatch_step (env : Env) (productNumber attributeName
    standardAttribute : String) (availableValues : List String)
    (imagePath : Option String) : Except Unit String :=
  if is_season_attribute attributeName then
    Except.ok (process_season_attribute env attributeName availableValues)
  else if is_material_attribute standardAttribute then
    Except.ok (process_material_attribute env productNumber standardAttribute
      availableValues)
  else if is_size_attribute standardAttribute then
    Except.ok (process_size_attribute env productNumber standardAttribute
      availableValues imagePath).result
  else if is_closure_attribute standardAttribute then
    Except.ok (process_closure_attribute env imagePath availableValues)
  else if is_toe_style_attribute standardAttribute then
    Except.ok (process_toe_style_attribute env imagePath availableValues)
  else if is_heel_shape_attribute standardAttribute then
    Except.ok (process_heel_shape_attribute env imagePath availableValues)
  else if is_opening_depth_attribute standardAttribute then
    Except.ok (process_opening_depth_attribute env imagePath availableValues)
  else if is_style_attribute standardAttribute then
    process_style_attribute env imagePath availableValues
  else if is_shoe_shape_attribute standardAttribute then
    process_shoe_shape_attribute env imagePath availableValues
  else
    Except.ok (process_general_attribute env productNumber standardAttribute
      availableValues)

/-- The first fallback of `select_attribute_value` (lines 114–118): when
the processor produced an empty value and candidates exist, retry the
matcher on an empty query, passing the canonical name as an attribute-type
hint exactly when it keys the value map. -/
def fallback_first (env : Env) (standardAttribute : String)
    (availableValues : List String) (selectedValue0 : String) : String :=
  if selectedValue0.isEmpty && !availableValues.isEmpty then
    find_best_value_match env ("") availableValues
      (if value_mapping_keys.contains standardAttribute then
        some standardAttribute
      else none)
  else selectedValue0

/-- Both fallbacks of `select_attribute_value` (lines 114–123): the second
step rewrites a still-empty value to `""`, a no-op on strings. -/
def fallback_steps (env : Env) (standardAttribute : String)
    (availableValues : List String) (selectedValue0 : String) : String :=
  if (fallback_first env standardAttribute availableValues
      selectedValue0).isEmpty && !availableValues.isEmpty then ("")
  else fallback_first env standardAttribute availableValues selectedValue0

/-- Source `select_attribute_value`: validate the image path, trim the name,
canonicalize it, dispatch on the category, then run the two fallback steps
and pair the result with the product number. -/
def select_attribute_value (env : Env) (productNumber attributeName0 : String)
    (availableValues : List String) (imagePath0 : Option String) :
    Except Unit (String × String) :=
  match dispatch_step env productNumber (pyStrip attributeName0)
      (find_standard_attribute env (pyStrip attributeName0))
      availableValues (validate_image_path env imagePath0) with
  | Except.error e => Except.error e
  | Except.ok selectedValue0 =>
    Except.ok (productNumber,
      fallback_steps env (find_standard_attribute env (pyStrip attributeName0))
        availableValues selectedValue0)

/-! ### Category projection

`select_attribute_value` does not reify its category decision; these
definitions name the branch it takes.  `selected_category` mirrors the
dispatch of lines 74–112 exactly (season on the trimmed raw name, the rest
on the canonicalized name); `raw_name_category` is the same ordered check
run entirely on the trimmed raw name, which is how the specification words
the classification. -/

/-- The closed category enumeration of the specification. -/
inductive Category where
  | season | material | size | closure | toe_style | heel_shape
  | opening_depth | style | shoe_shape | general
deriving DecidableEq, Repr

/-- The category whose processor `select_attribute_value` runs, mirroring
its dispatch: the season check on the trimmed raw name, all later checks on
the canonicalized name. -/
def selected_category (env : Env) (attributeName0 : String) : Category :=
  if is_season_attribute (pyStrip attributeName0) then Category.season
  else if is_material_attribute
      (find_standard_attribute env (pyStrip attributeName0)) then Category.material
  else if is_size_attribute
      (find_standard_attribute env (pyStrip attributeName0)) then Category.size
  else if is_closure_attribute
      (find_standard_attribute env (pyStrip attributeName0)) then Category.closure
  else if is_toe_style_attribute
      (find_standard_attribute env (pyStrip attributeName0)) then Category.toe_style
  else if is_heel_shape_attribute
      (find_standard_attribute env (pyStrip attributeName0)) then Category.heel_shape
  else if is_opening_depth_attribute
      (find_standard_attribute env (pyStrip attributeName0)) then Category.opening_depth
  else if is_style_attribute
      (find_standard_attribute env (pyStrip attributeName0)) then Category.style
  else if is_shoe_shape_attribute
      (find_standard_attribute env (pyStrip attributeName0)) then Category.shoe_shape
  else Category.general

/-- Category detection as the claim words it: every ordered keyword check
runs on the original trimmed raw name. -/
def raw_name_category (attributeName0 : String) : Category :=
  if is_season_attribute (pyStrip attributeName0) then Category.season
  else if is_material_attribute (pyStrip attributeName0) then Category.material
  else if is_size_attribute (pyStrip attributeName0) then Category.size
  else if is_closure_attribute (pyStrip attributeName0) then Category.closure
  else if is_toe_style_attribute (pyStrip attributeName0) then Category.toe_style
  else if is_heel_shape_attribute (pyStrip attributeName0) then Category.heel_shape
  else if is_opening_depth_attribute (pyStrip attributeName0) then Category.opening_depth
  else if is_style_attribute (pyStrip attributeName0) then Category.style
  else if is_shoe_shape_attribute (pyStrip attributeName0) then Category.shoe_shape
  else Category.general

/-! ### Concrete environments for closed evaluations -/

/-- An environment whose oracles all answer blankly; month is April,
year 2025. -/
def constEnv : Env where
  llm := fun _ => ""
  vision := fun _ _ => ""
  embedArgmax := fun _ _ => 0
  pathExists := fun _ => false
  db := fun _ _ => []
  month := 4
  year := 2025

/-! ### Soundness of the value matcher and the processors

The load-bearing invariant: every path that ends in `find_best_value_match`
yields a member of the candidate list or the empty string. -/

/-- The default head of a non-empty list is its first element. -/
theorem headD_mem {l : List String} (h : l.isEmpty = false) :
    l.headD ("") ∈ l := by
  cases l with
  | nil => simp at h
  | cons a t => simp

/-- A hit in the value-map loop is guarded by candidate membership. -/
theorem value_map_first_match_mem (vm : List (String × List String))
    (q : String) (avail : List String) (v : String)
    (h : value_map_first_match vm q avail = some v) : v ∈ avail := by
  induction vm with
  | nil => simp [value_map_first_match] at h
  | cons e rest ih =>
    obtain ⟨std, als⟩ := e
    rw [value_map_first_match] at h
    split at h
    · next hg =>
      obtain ⟨-, hmem⟩ := Bool.and_eq_true_iff.mp hg
      cases h
      exact List.mem_of_elem_eq_true hmem
    · split at h
      · next hg =>
        obtain ⟨-, hmem⟩ := Bool.and_eq_true_iff.mp hg
        cases h
        exact List.mem_of_elem_eq_true hmem
      · exact ih h

/-- A hit in the table-lookup step is a member of the candidate list. -/
theorem table_lookup_step_mem (t : Option String) (q : String)
    (avail : List String) (v : String)
    (h : table_lookup_step t q avail = some v) : v ∈ avail := by
  unfold table_lookup_step at h
  split at h
  · cases h
  · split at h
    · cases h
    · split at h
      · cases h
      · exact value_map_first_match_mem _ _ _ _ h

/-- The model-assisted tail of the matcher yields a candidate or `""`. -/
theorem llm_match_step_sound (env : Env) (q : String) (avail : List String) :
    llm_match_step env q avail ∈ avail ∨ llm_match_step env q avail = "" := by
  simp only [llm_match_step]
  split
  · split
    · next h => exact Or.inl (List.mem_of_elem_eq_true h)
    · exact Or.inr rfl
  · split
    · next h => exact Or.inl (List.mem_of_elem_eq_true h)
    · exact Or.inr rfl

/-- Source `find_best_value_match` yields a candidate or the empty string. -/
theorem find_best_value_match_sound (env : Env) (q : String)
    (avail : List String) (t : Option String) :
    find_best_value_match env q avail t ∈ avail ∨
      find_best_value_match env q avail t = "" := by
  unfold find_best_value_match
  split
  · exact Or.inr rfl
  · next hne =>
    split
    · exact Or.inl (headD_mem (by simpa using hne))
    · split
      · next v hv => exact Or.inl (table_lookup_step_mem _ _ _ _ hv)
      · exact llm_match_step_sound env q avail

/-- The non-release-year season branch yields a candidate or `""`. -/
theorem process_season_attribute_sound (env : Env) (a : String)
    (avail : List String) (hc : strContains a ("上市年份") = false) :
    process_season_attribute env a avail ∈ avail ∨
      process_season_attribute env a avail = "" := by
  unfold process_season_attribute
  rw [hc]
  simp only [Bool.false_eq_true, if_false]
  split
  · next v hv => exact Or.inl (List.mem_of_find?_eq_some hv)
  · exact find_best_value_match_sound env _ avail none

/-- The material processor yields a candidate or `""`. -/
theorem process_material_attribute_sound (env : Env) (pn a : String)
    (avail : List String) :
    process_material_attribute env pn a avail ∈ avail ∨
      process_material_attribute env pn a avail = "" := by
  simp only [process_material_attribute]
  split
  · exact find_best_value_match_sound env _ avail none
  · exact Or.inr rfl

/-- The size processor yields a candidate or `""`. -/
theorem process_size_attribute_sound (env : Env) (pn a : String)
    (avail : List String) (ip : Option String) :
    (process_size_attribute env pn a avail ip).result ∈ avail ∨
      (process_size_attribute env pn a avail ip).result = "" := by
  simp only [process_size_attribute]
  split
  · split
    · exact find_best_value_match_sound env _ avail none
    · exact Or.inr rfl
  · split
    · exact find_best_value_match_sound env _ avail none
    · exact Or.inr rfl

/-- The closure processor yields a candidate or `""`. -/
theorem process_closure_attribute_sound (env : Env) (ip : Option String)
    (avail : List String) :
    process_closure_attribute env ip avail ∈ avail ∨
      process_closure_attribute env ip avail = "" := by
  simp only [process_closure_attribute]
  split
  · exact Or.inr rfl
  · split
    · exact find_best_value_match_sound env _ avail _
    · exact Or.inr rfl

/-- The toe-style processor yields a candidate or `""`. -/
theorem process_toe_style_attribute_sound (env : Env) (ip : Option String)
    (avail : List String) :
    process_toe_style_attribute env ip avail ∈ avail ∨
      process_toe_style_attribute env ip avail = "" := by
  simp only [process_toe_style_attribute]
  split
  · exact Or.inr rfl
  · split
    · exact find_best_value_match_sound env _ avail none
    · exact Or.inr rfl

/-- The heel-shape processor yields a candidate or `""`. -/
theorem process_heel_shape_attribute_sound (env : Env) (ip : Option String)
    (avail : List String) :
    process_heel_shape_attribute env ip avail ∈ avail ∨
      process_heel_shape_attribute env ip avail = "" := by
  simp only [process_heel_shape_attribute]
  split
  · exact Or.inr rfl
  · split
    · exact find_best_value_match_sound env _ avail none
    · exact Or.inr rfl

/-- The opening-depth processor yields a candidate or `""`. -/
theorem process_opening_depth_attribute_sound (env : Env) (ip : Option String)
    (avail : List String) :
    process_opening_depth_attribute env ip avail ∈ avail ∨
      process_opening_depth_attribute env ip avail = "" := by
  simp only [process_opening_depth_attribute]
  split
  · exact Or.inr rfl
  · split
    · exact find_best_value_match_sound env _ avail none
    · exact Or.inr rfl

/-- When the style processor returns normally, its value is a candidate
or `""`. -/
theorem process_style_attribute_sound (env : Env) (ip : Option String)
    (avail : List String) (v : String)
    (h : process_style_attribute env ip avail = Except.ok v) :
    v ∈ avail ∨ v = "" := by
  simp only [process_style_attribute] at h
  split at h
  · cases h
  · split at h
    · cases h
      exact find_best_value_match_sound env _ avail none
    · cases h
      exact Or.inr rfl

/-- When the shoe-shape processor returns normally, its value is a
candidate or `""`. -/
theorem process_shoe_shape_attribute_sound (env : Env) (ip : Option String)
    (avail : List String) (v : String)
    (h : process_shoe_shape_attribute env ip avail = Except.ok v) :
    v ∈ avail ∨ v = "" := by
  simp only [process_shoe_shape_attribute] at h
  split at h
  · cases h
  · split at h
    · cases h
      exact find_best_value_match_sound env _ avail none
    · cases h
      exact Or.inr rfl

/-- The general processor yields a candidate or `""`. -/
theorem process_general_attribute_sound (env : Env) (pn a : String)
    (avail : List String) :
    process_general_attribute env pn a avail ∈ avail ∨
      process_general_attribute env pn a avail = "" := by
  simp only [process_general_attribute]
  split
  · exact find_best_value_match_sound env _ avail none
  · exact Or.inr rfl

/-- Every dispatch branch except the release-year season branch yields a
candidate or `""` when it returns normally. -/
theorem dispatch_step_sound (env : Env) (pn a std : String)
    (avail : List String) (ip : Option String) (v : String)
    (hseason : ¬(is_season_attribute a = true ∧
      strContains a ("上市年份") = true))
    (h : dispatch_step env pn a std avail ip = Except.ok v) :
    v ∈ avail ∨ v = "" := by
  unfold dispatch_step at h
  split at h
  · next hs =>
    cases hc : strContains a ("上市年份") with
    | true => exact absurd ⟨hs, hc⟩ hseason
    | false =>
      cases h
      exact process_season_attribute_sound env a avail hc
  · split at h
    · cases h
      exact process_material_attribute_sound env pn std avail
    · split at h
      · cases h
        exact process_size_attribute_sound env pn std avail ip
      · split at h
        · cases h
          exact process_closure_attribute_sound env ip avail
        · split at h
          · cases h
            exact process_toe_style_attribute_sound env ip avail
          · split at h
            · cases h
              exact process_heel_shape_attribute_sound env ip avail
            · split at h
              · cases h
                exact process_opening_depth_attribute_sound env ip avail
              · split at h
                · exact process_style_attribute_sound env ip avail v h
                · split at h
                  · exact process_shoe_shape_attribute_sound env ip avail v h
                  · cases h
                    exact process_general_attribute_sound env pn std avail

/-- The fallback chain preserves the invariant. -/
theorem fallback_steps_sound (env : Env) (std : String)
    (avail : List String) (sv0 : String) (h : sv0 ∈ avail ∨ sv0 = "") :
    fallback_steps env std avail sv0 ∈ avail ∨
      fallback_steps env std avail sv0 = "" := by
  unfold fallback_steps
  split
  · exact Or.inr rfl
  · unfold fallback_first
    split
    · exact find_best_value_match_sound env ("") avail _
    · exact h

/-! ### Further concrete environments used by closed evaluations -/

/-- An environment whose language model always answers an out-of-vocabulary
string. -/
def llmJunkEnv : Env := { constEnv with llm := fun _ => ("六月六日") }

/-- An environment whose database reports the field 高度 with an SQL
`NULL` value (Python `None`) for every product. -/
def dbNoneEnv : Env := { constEnv with db := fun _ _ => [("高度", none)] }

/-! ### Claim theorems -/

/-- Claim C1, counterexample: on the release-year season branch the
orchestrator returns the raw language-model answer without a membership
check, so with attribute name 上市年份季节, candidates 红色/蓝色 and a model
that answers 六月六日, `select_attribute_value` returns a non-empty string
outside the supplied vocabulary. -/
theorem select_returns_outside_vocabulary_on_release_year :
    select_attribute_value llmJunkEnv ("P1") ("上市年份季节")
        [("红色"), ("蓝色")] none = Except.ok (("P1"), ("六月六日")) ∧
    ("六月六日") ∉ ([("红色"), ("蓝色")] : List String) ∧
    ("六月六日") ≠ ("") :=
  ⟨rfl, by decide, by decide⟩

/-- Claim C1, amended: for every request whose trimmed attribute name is
not classified as release-year season (season keyword hit together with
containing 上市年份), whenever `select_attribute_value` returns normally
its selected value is one of the supplied candidate values or the empty
string, for every product identifier, candidate list, optional image path
and oracle behaviour. -/
theorem select_value_in_vocabulary_unless_release_year (env : Env)
    (pn an : String) (avail : List String) (ip : Option String)
    (p : String × String)
    (hseason : ¬(is_season_attribute (pyStrip an) = true ∧
      strContains (pyStrip an) ("上市年份") = true))
    (hok : select_attribute_value env pn an avail ip = Except.ok p) :
    p.2 ∈ avail ∨ p.2 = ("") := by
  unfold select_attribute_value at hok
  split at hok
  · cases hok
  · next sv0 hd =>
    cases hok
    exact fallback_steps_sound env _ avail sv0
      (dispatch_step_sound env pn _ _ avail _ sv0 hseason hd)

/-- Witness for claim C1's amended theorem at attribute 季节, candidates
夏季/冬季, month April: the returned value 夏季 is in the vocabulary. -/
theorem select_value_in_vocabulary_unless_release_year_witness :
    ((("P1"), ("夏季")) : String × String).2 ∈ [("夏季"), ("冬季")] ∨
      ((("P1"), ("夏季")) : String × String).2 = ("") :=
  select_value_in_vocabulary_unless_release_year constEnv ("P1") ("季节")
    [("夏季"), ("冬季")] none (("P1"), ("夏季")) (by decide) rfl

/-- Claim C2 (code bug): on the style branch with a missing image the
source calls `logger.waring`, a misspelling of `logger.warning`, so the
call raises `AttributeError` to the caller instead of producing a result
pair; the embedding evaluates the failing input 风格 with no image to the
error outcome. -/
theorem select_raises_attribute_error_on_style_without_image :
    select_attribute_value constEnv ("P1") ("风格") [("甜美")] none =
      Except.error () := rfl

/-- Claim C3, counterexample: the raw name 台高 matches no category keyword
(so the claimed raw-name classification yields general), but the code
canonicalizes 台高 to 鞋底厚度 via the alias table and then runs the later
checks on the canonical name, which contains the size keyword 厚度, so the
size strategy is selected. -/
theorem category_not_from_raw_name_example :
    selected_category constEnv ("台高") = Category.size ∧
    raw_name_category ("台高") = Category.general ∧
    selected_category constEnv ("台高") ≠ raw_name_category ("台高") :=
  ⟨rfl, rfl, by decide⟩

/-- Claim C3, amended: only the season check runs on the original trimmed
raw name; the remaining ordered checks (material, size, closure, toe style,
heel shape, opening depth, style, shoe shape, with general as catch-all)
run on the canonicalized name.  Consequently, whenever alias/LLM resolution
leaves the trimmed name unchanged, the selected category agrees with the
claimed raw-name classification. -/
theorem category_from_raw_name_when_already_canonical (env : Env)
    (a : String)
    (h : find_standard_attribute env (pyStrip a) = pyStrip a) :
    selected_category env a = raw_name_category a := by
  unfold selected_category raw_name_category
  rw [h]

/-- Witness for claim C3's amended theorem at the already-canonical name
闭合方式. -/
theorem category_from_raw_name_when_already_canonical_witness :
    selected_category constEnv ("闭合方式") = raw_name_category ("闭合方式") :=
  category_from_raw_name_when_already_canonical constEnv ("闭合方式")
    (by decide)

/-- Claim C4 (confirmed): for every query string, candidate list,
attribute-type hint and every behaviour of the language-model and
embedding oracles, `find_best_value_match` returns a member of the
candidate list or the empty string — never a string outside it. -/
theorem find_best_value_match_in_candidates (env : Env) (q : String)
    (avail : List String) (t : Option String) :
    find_best_value_match env q avail t ∈ avail ∨
      find_best_value_match env q avail t = ("") :=
  find_best_value_match_sound env q avail t

/-- Claim C5 (confirmed): on an empty candidate list the matcher returns
the empty string, and on a singleton candidate list it returns that
element, in both cases for every query, attribute-type hint and oracle
behaviour — so without consulting the value map, the language model or the
embedding similarity. -/
theorem find_best_value_match_empty_and_singleton :
    (∀ (env : Env) (q : String) (t : Option String),
      find_best_value_match env q [] t = ("")) ∧
    (∀ (env : Env) (q : String) (t : Option String) (x : String),
      find_best_value_match env q [x] t = x) :=
  ⟨fun _ _ _ => rfl, fun _ _ _ _ => rfl⟩

/-- Claim C6 (confirmed): the season-successor mapping is cyclic with
period 4 on each of the four seasons. -/
theorem season_successor_period_four :
    season_successor (season_successor (season_successor
      (season_successor ("春季")))) = ("春季") ∧
    season_successor (season_successor (season_successor
      (season_successor ("夏季")))) = ("夏季") ∧
    season_successor (season_successor (season_successor
      (season_successor ("秋季")))) = ("秋季") ∧
    season_successor (season_successor (season_successor
      (season_successor ("冬季")))) = ("冬季") := by
  decide

/-- Claim C7 (confirmed): with the configured value map and candidates
真皮/人造革, matching 真牛皮 with attribute type 材质 returns 真皮 through
the table-lookup step, for every environment — hence before and
independently of any language-model call. -/
theorem material_value_map_short_circuit (env : Env) :
    find_best_value_match env ("真牛皮") [("真皮"), ("人造革")]
      (some ("材质")) = ("真皮") := rfl

/-- Claim C8, counterexample: for attribute name 高度 the database yields
the explicit missing sentinel (field present with value `None`), yet the
image-analysis fallback is not invoked, because 高度 matches none of the
heel/tube/platform recognition keywords — refuting the claimed
"invoked exactly when the lookup yielded the sentinel". -/
theorem size_image_fallback_requires_recognition_example :
    (process_size_attribute dbNoneEnv ("P1") ("高度") [("低帮"), ("高帮")]
      (some ("a.jpg"))).dbValue = none ∧
    (process_size_attribute dbNoneEnv ("P1") ("高度") [("低帮"), ("高帮")]
      (some ("a.jpg"))).visionCall = none :=
  ⟨rfl, rfl⟩

/-- Claim C8, amended: the image-analysis fallback is invoked exactly when
the database lookup yielded the explicit missing sentinel (a present field
whose value is `None` — not merely a falsy or absent value) and the
attribute name matches one of the size sub-category keyword sets
(heel/tube/platform); and the only image question it ever asks is the
heel-height-specific one. -/
theorem size_image_fallback_condition (env : Env) (pn a : String)
    (avail : List String) (ip : Option String) :
    ((process_size_attribute env pn a avail ip).visionCall.isSome =
      ((process_size_attribute env pn a avail ip).dbValue.isNone &&
        !(size_recognition_type a).isEmpty)) ∧
    ((process_size_attribute env pn a avail ip).visionCall = none ∨
      (process_size_attribute env pn a avail ip).visionCall =
        some ("heel_height")) := by
  simp only [process_size_attribute]
  constructor
  · split
    · next hinv => rw [hinv]; rfl
    · next hinv =>
      rw [Bool.not_eq_true] at hinv
      rw [hinv]
      rfl
  · split
    · exact Or.inr rfl
    · exact Or.inl rfl

/-- Claim C9 (confirmed): `extract_primary_material` splits a composite
material string at the first applicable separator and returns the first
segment stripped, and returns the input stripped when no separator
occurs; in particular 牛皮革+织物 yields 牛皮革 and 真皮 is returned
unchanged. -/
theorem extract_primary_material_split_and_strip :
    extract_primary_material ("牛皮革+织物") = ("牛皮革") ∧
    extract_primary_material ("真皮") = ("真皮") ∧
    ∀ s : String,
      material_separators.all (fun sep => !(strContains s sep)) = true →
        extract_primary_material s = pyStrip s := by
  refine ⟨by decide, by decide, ?_⟩
  intro s hs
  unfold extract_primary_material
  split
  · next hEmpty =>
    rw [(String.isEmpty_iff s).mp hEmpty]
    rfl
  · split
    · next sep hsep =>
      have h1 := List.find?_some hsep
      have h2 := List.all_eq_true.mp hs sep (List.mem_of_find?_eq_some hsep)
      rw [h1] at h2
      simp at h2
    · rfl

/-- Witness for claim C9's no-separator clause at the input 真皮. -/
theorem extract_primary_material_split_and_strip_witness :
    extract_primary_material ("真皮") = pyStrip ("真皮") :=
  extract_primary_material_split_and_strip.2.2 ("真皮") (by decide)

/-- Claim C10 (confirmed): whenever `select_attribute_value` returns a
pair, its first component is exactly the product identifier that was
passed in, for every attribute name, candidate list, image path and oracle
behaviour. -/
theorem select_preserves_product_number (env : Env) (pn an : String)
    (avail : List String) (ip : Option String) (p : String × String)
    (hok : select_attribute_value env pn an avail ip = Except.ok p) :
    p.1 = pn := by
  unfold select_attribute_value at hok
  split at hok
  · cases hok
  · cases hok
    rfl

/-- Witness for claim C10 at attribute 季节 with a singleton vocabulary:
the result pair carries the product identifier unchanged. -/
theorem select_preserves_product_number_witness :
    ((("P2"), ("秋季")) : String × String).1 = ("P2") :=
  select_preserves_product_number constEnv ("P2") ("季节") [("秋季")] none
    (("P2"), ("秋季")) rfl

end ProductAttributeSelector

